import Mathlib

/-!
Verification of the larvae-counter web application (src/app.py, src/config.py).

The Python program is shallowly embedded: the pure computations of
`process_image` and the session-state bookkeeping of `main` become Lean
functions; the external libraries (the YOLO model, cv2 drawing calls, the
Streamlit widgets) are modelled as explicit parameters or as draw
operations recorded on the image value.  Fallible external calls return
`Except`.
-/

namespace ContadorLarvas

/-- A color triple as cv2 receives it, `(c1, c2, c3)`. -/
structure Color where
  c1 : Nat
  c2 : Nat
  c3 : Nat
deriving DecidableEq, Repr

/-- A drawing operation applied to an image buffer.  `cv2.rectangle` and
`cv2.putText` mutate the pixel buffer; we record them as operations, since
their rasterisation is external to the repository. -/
inductive DrawOp where
  | rectangle (p1 p2 : Int × Int) (color : Color) (thickness : Int)
  | putText (text : String) (org : Int × Int) (fontScale : ℚ) (color : Color)
      (thickness : Nat)
deriving DecidableEq, Repr

/-- A raster image: its shape `(height, width, channels)`, its pixel payload
(one `(c1, c2, c3)` triple per pixel, flattened) and the drawing operations
layered on top of it. -/
structure Img where
  height : Nat
  width : Nat
  channels : Nat
  data : List (Nat × Nat × Nat)
  ops : List DrawOp
deriving DecidableEq, Repr

/-- `np.ascontiguousarray(res_bgr[..., ::-1])`: reverse the channel axis of
every pixel, turning BGR into RGB. -/
def bgrToRgb (img : Img) : Img :=
  { img with data := img.data.map (fun p => (p.2.2, p.2.1, p.1)) }

/-- One detected bounding box with its confidence score. -/
structure Box where
  x1 : ℚ
  y1 : ℚ
  x2 : ℚ
  y2 : ℚ
  conf : ℚ
deriving DecidableEq, Repr

/-- The detection result `results[0]` of a model call: the list of boxes and
the image produced by `results[0].plot(line_width=1, font_size=1,
labels=False)`. -/
structure DetectResult where
  boxes : List Box
  plotImg : Img
deriving DecidableEq, Repr

/-- A loaded YOLO model.  Calling `model(image, conf=c, max_det=10000)` may
raise, hence `Except`. -/
structure Model where
  detect : Img → ℚ → Except String DetectResult

/-- The signature of `cv2.getTextSize`: from the text, the font scale and the
thickness to `((text_w, text_h), baseline)`.  Its metrics are external, so it
is passed as a parameter. -/
def GetTextSize : Type := String → ℚ → Nat → (Nat × Nat) × Nat

/-- `font_scale = max(1, w / 1000)` (float division in Python, exact here). -/
def fontScaleOf (w : Nat) : ℚ := max 1 ((w : ℚ) / 1000)

/-- `thickness = max(2, int(font_scale * 2))`; `int` truncates, and the
argument is nonnegative, so truncation is `Int.floor`. -/
def thicknessOf (fs : ℚ) : Nat := max 2 (Int.floor (fs * 2)).toNat

/-- `margin = int(10 * font_scale)`. -/
def marginOf (fs : ℚ) : Nat := (Int.floor ((10 : ℚ) * fs)).toNat

/-- The banner text `f"TOTAL: {count}"`. -/
def bannerText (count : Nat) : String := "TOTAL: " ++ toString count

/-- `color_bg = (27, 77, 137)`. -/
def color_bg : Color := ⟨27, 77, 137⟩

/-- `color_text = (255, 255, 255)`. -/
def color_text : Color := ⟨255, 255, 255⟩

/-- `process_image(image, model, confidence)` from src/app.py: run the model,
count the boxes, convert the plotted image to RGB, draw the filled banner
rectangle at the top-left corner and put the count text on it.  An exception
raised by the model call propagates (the function has no handler). -/
def process_image (gts : GetTextSize) (image : Img) (model : Model)
    (confidence : ℚ) : Except String (Img × Nat) :=
  match model.detect image confidence with
  | .error e => .error e
  | .ok results =>
    let count := results.boxes.length
    let res_rgb := bgrToRgb results.plotImg
    let text := bannerText count
    let w := res_rgb.width
    let font_scale := fontScaleOf w
    let thickness := thicknessOf font_scale
    let ts := gts text font_scale thickness
    let text_w := ts.1.1
    let text_h := ts.1.2
    let baseline := ts.2
    let margin := marginOf font_scale
    let res1 := { res_rgb with
      ops := res_rgb.ops ++
        [DrawOp.rectangle (0, 0)
          ((text_w + margin * 2 : Nat), (text_h + margin * 2 : Nat))
          color_bg (-1)] }
    let text_x : Int := margin
    let text_y : Int := (text_h : Int) + margin - (baseline / 2 : Nat)
    let res2 := { res1 with
      ops := res1.ops ++
        [DrawOp.putText text (text_x, text_y) font_scale color_text thickness] }
    .ok (res2, count)

end ContadorLarvas

namespace ContadorLarvas

/-- C1 sanity helper: a fixed text-size oracle for concrete evaluation. -/
def gts0 : GetTextSize := fun _ _ _ => ((100, 30), 5)

/-- A tiny concrete image for concrete evaluation. -/
def img0 : Img := { height := 2, width := 100, channels := 3,
                    data := [(1, 2, 3), (4, 5, 6)], ops := [] }

/-- A concrete detection result with two boxes. -/
def res0 : DetectResult :=
  { boxes := [⟨0, 0, 1, 1, 1/2⟩, ⟨1, 1, 2, 2, 3/4⟩], plotImg := img0 }

/-- A concrete model that always succeeds with `res0`. -/
def model0 : Model := { detect := fun _ _ => .ok res0 }

/-- A concrete model whose call always raises. -/
def modelErr : Model := { detect := fun _ _ => .error "boom" }

end ContadorLarvas

namespace ContadorLarvas

/-- A file handed over by `st.file_uploader`: its `name` and its raw bytes. -/
structure UploadedFile where
  name : String
  bytes : List Nat
deriving DecidableEq, Repr

/-- The Streamlit session state as the app uses it: the three keys
`previous_file_name`, `result_image` and `count`, each present or absent. -/
structure SessionState where
  previous_file_name : Option String
  result_image : Option Img
  count : Option Nat
deriving DecidableEq, Repr

/-- The cache-invalidation block of `main` ("Verificar si la imagen cambió o
se eliminó"): with a file present, clear `result_image` and `count` when a
recorded previous name differs from the current one, then record the current
name; with no file, delete all three keys. -/
def invalidate (uploaded : Option UploadedFile) (st : SessionState) :
    SessionState :=
  match uploaded with
  | some f =>
    let current_file_name := f.name
    let st1 :=
      match st.previous_file_name with
      | some prev =>
        if prev ≠ current_file_name then
          { st with result_image := none, count := none }
        else st
      | none => st
    { st1 with previous_file_name := some current_file_name }
  | none => { previous_file_name := none, result_image := none, count := none }

/-- The detection block of `main` run on a button click: call
`process_image` and store both the annotated image and the count in the
session state.  An exception from the model call propagates. -/
def detectStep (gts : GetTextSize) (image : Img) (model : Model)
    (confidence : ℚ) (st : SessionState) : Except String SessionState :=
  match process_image gts image model confidence with
  | .error e => .error e
  | .ok rc => .ok { st with result_image := some rc.1, count := some rc.2 }

/-- The pairing invariant of the cached result: `result_image` is present in
the session state iff `count` is. -/
def paired (st : SessionState) : Prop :=
  st.result_image.isSome = st.count.isSome

instance (st : SessionState) : Decidable (paired st) := by
  unfold paired
  infer_instance

/-- A concrete session state holding a full cached result. -/
def stFull : SessionState :=
  { previous_file_name := some "larvas.png", result_image := some img0,
    count := some 2 }

/-- A concrete uploaded file whose name differs from `stFull`'s record. -/
def fileNew : UploadedFile := { name := "otra.png", bytes := [9, 9] }

/-- A concrete uploaded file with `stFull`'s recorded name but other bytes. -/
def fileSameName : UploadedFile := { name := "larvas.png", bytes := [7] }

end ContadorLarvas

namespace ContadorLarvas

namespace Config

/-- `COMPANY_NAME` from src/config.py. -/
def COMPANY_NAME : String := "St. Andrews"

/-- `APP_NAME` from src/config.py. -/
def APP_NAME : String := "Contador de Larvas de Chorito"

/-- `VERSION` from src/config.py. -/
def VERSION : String := "1.0.0 Web"

/-- `DEFAULT_MODEL_PATH` from src/config.py, as the path string the app
passes to the YOLO constructor (relative to `BASE_DIR`). -/
def DEFAULT_MODEL_PATH : String := "models/best yolov11S.pt"

/-- `DEFAULT_CONFIDENCE = 0.25` from src/config.py. -/
def DEFAULT_CONFIDENCE : ℚ := 0.25

/-- `MIN_CONFIDENCE = 0.1` from src/config.py. -/
def MIN_CONFIDENCE : ℚ := 0.1

/-- `MAX_CONFIDENCE = 0.9` from src/config.py. -/
def MAX_CONFIDENCE : ℚ := 0.9

end Config

/-- `st.slider`: the widget yields the default value when untouched, and
otherwise the user's choice, which the widget keeps inside the configured
`[minV, maxV]` range. -/
def slider (minV maxV defaultV : ℚ) (userChoice : Option ℚ) : ℚ :=
  match userChoice with
  | none => defaultV
  | some v => max minV (min maxV v)

/-- The confidence value `main` reads from its slider and later passes to
`process_image`: the slider is configured with `config.MIN_CONFIDENCE`,
`config.MAX_CONFIDENCE` and `config.DEFAULT_CONFIDENCE`. -/
def mainConfidence (userChoice : Option ℚ) : ℚ :=
  slider Config.MIN_CONFIDENCE Config.MAX_CONFIDENCE Config.DEFAULT_CONFIDENCE
    userChoice

/-- `PurePath.name`: the final component of a path string (the characters
after the last separator). -/
def pathFinalComponent (s : String) : String :=
  String.mk ((s.toList.reverse.takeWhile (fun c => c ≠ '/')).reverse)

/-- `PurePath.stem` from pathlib, as `Path(uploaded_file.name).stem` uses it:
the final component without its suffix, where the suffix starts at the last
dot provided that dot is neither the first nor the last character. -/
def stem (s : String) : String :=
  let nm := pathFinalComponent s
  let cs := nm.toList
  let n := cs.length
  match ((List.range n).filter (fun i => cs.getD i ' ' = '.')).getLast? with
  | some i => if 0 < i ∧ i < n - 1 then String.mk (cs.take i) else nm
  | none => nm

/-- One Streamlit rendering event, in the order `main` emits them. -/
inductive UIEvent where
  | sidebarLogo
  | headerTxt (t : String)
  | sliderW (minV maxV defaultV stepV : ℚ)
  | info (t : String)
  | title (t : String)
  | markdownBlock
  | divider
  | error (t : String)
  | warning (t : String)
  | stop
  | fileUploader
  | button (label : String)
  | spinner (t : String)
  | metric (n : Nat)
  | downloadButton (fileName : String) (mime : String)
  | subheader (t : String)
  | image (img : Img)
deriving DecidableEq, Repr

/-- The message of `st.error(f"Error al cargar el modelo: {e}")`. -/
def modelLoadErrorMsg (e : String) : String :=
  "Error al cargar el modelo: " ++ e

/-- The message of the `st.warning` shown when `load_model` returns None. -/
def modelNotFoundMsg : String :=
  "No se encontró el modelo en: " ++ Config.DEFAULT_MODEL_PATH ++
    ". Verifique la ruta."

/-- The `st.info` prompt shown when no file is uploaded. -/
def uploadPromptMsg : String :=
  "Por favor, carga una imagen para comenzar la detección."

/-- `load_model(model_path)` from src/app.py, without the cache decorator:
construct the YOLO model from the path; on an exception, emit an
`st.error` and return None.  The constructor is the external parameter
`yolo`. -/
def load_model (yolo : String → Except String Model) (model_path : String) :
    Option Model × List UIEvent :=
  match yolo model_path with
  | .ok m => (some m, [])
  | .error e => (none, [UIEvent.error (modelLoadErrorMsg e)])

/-- The state of the `st.cache_resource` decorator on `load_model`: the
memoised return values keyed by argument, plus how many times the YOLO
constructor has been invoked in this process. -/
structure CacheState where
  entries : List (String × Option Model)
  constructorCalls : Nat

/-- Lookup in the decorator's memo table. -/
def cacheLookup (entries : List (String × Option Model)) (path : String) :
    Option (Option Model) :=
  match entries with
  | [] => none
  | (k, v) :: rest => if k = path then some v else cacheLookup rest path

/-- `load_model` as decorated with `@st.cache_resource`: a hit returns the
memoised value untouched; a miss runs the body once and memoises its
result (a None result is cached too). -/
def load_model_cached (yolo : String → Except String Model) (path : String)
    (cs : CacheState) : Option Model × CacheState :=
  match cacheLookup cs.entries path with
  | some v => (v, cs)
  | none =>
    let v := (load_model yolo path).1
    (v, { entries := (path, v) :: cs.entries,
          constructorCalls := cs.constructorCalls + 1 })

/-- The sidebar block of `main`: optional logo, header, confidence slider
(step 0.05) and version info. -/
def sidebarEvents (logoExists : Bool) : List UIEvent :=
  (if logoExists then [UIEvent.sidebarLogo] else []) ++
    [UIEvent.headerTxt "Configuración",
     UIEvent.sliderW Config.MIN_CONFIDENCE Config.MAX_CONFIDENCE
       Config.DEFAULT_CONFIDENCE (1 / 20),
     UIEvent.info ("Version: " ++ Config.VERSION ++ "\n\n" ++
       Config.COMPANY_NAME)]

/-- The page header of `main`: title, description markdown, divider. -/
def headerEvents : List UIEvent :=
  [UIEvent.title Config.APP_NAME, UIEvent.markdownBlock, UIEvent.divider]

/-- The metrics-and-download block of `main`: rendered only when both
`result_image` and `count` are in the session state; the download button
offers the annotated image under
`f"resultado_{original_name}_({st.session_state[count]}).jpg"` where
`original_name` is the stem of the uploaded file's name. -/
def downloadSection (uploadedName : String) (st : SessionState) :
    List UIEvent :=
  match st.result_image, st.count with
  | some _, some n =>
    [UIEvent.metric n,
     UIEvent.downloadButton
       ("resultado_" ++ stem uploadedName ++ "_(" ++ toString n ++ ").jpg")
       "image/jpeg"]
  | _, _ => []

/-- The download filename exactly as the spec words it:
`resultado_<stem of the uploaded file name>_(n).jpg`. -/
def specDownloadFilename (uploadedName : String) (n : Nat) : String :=
  "resultado_" ++ stem uploadedName ++ "_(" ++ toString n ++ ").jpg"

/-- The results column of `main`: the annotated image when present,
otherwise a hint to press the detect button. -/
def resultsColumn (st : SessionState) : List UIEvent :=
  UIEvent.subheader "Resultados Detección" ::
    (match st.result_image with
     | some img => [UIEvent.image img]
     | none => [UIEvent.info "Presiona el botón Detectar Larvas para ver los resultados."])

/-- Everything one rerun of the script reads from outside: the external
constructors and drawing metrics, the filesystem check for the logo, and the
widget states. -/
structure MainInputs where
  yolo : String → Except String Model
  gts : GetTextSize
  decodeImage : UploadedFile → Img
  logoExists : Bool
  userSlider : Option ℚ
  uploaded : Option UploadedFile
  detectClicked : Bool

/-- One full rerun of `main` from src/app.py over a prior session state:
sidebar and header, model loading (with warning and `st.stop` on failure),
the file uploader, cache invalidation, the optional detection step, the
metrics/download section and the two image columns.  An exception raised by
the model call inside `process_image` propagates out of the script. -/
def runMain (inp : MainInputs) (st0 : SessionState) :
    Except String (List UIEvent × SessionState) :=
  let pre := sidebarEvents inp.logoExists ++ headerEvents
  let confidence := mainConfidence inp.userSlider
  match load_model inp.yolo Config.DEFAULT_MODEL_PATH with
  | (none, loadEvts) =>
    .ok (pre ++ loadEvts ++ [UIEvent.warning modelNotFoundMsg, UIEvent.stop],
         st0)
  | (some model, loadEvts) =>
    let afterUpload := pre ++ loadEvts ++ [UIEvent.fileUploader]
    let st1 := invalidate inp.uploaded st0
    match inp.uploaded with
    | none => .ok (afterUpload ++ [UIEvent.info uploadPromptMsg], st1)
    | some f =>
      let image := inp.decodeImage f
      let btnEvts := [UIEvent.button "Detectar Larvas", UIEvent.divider]
      let detectOut : Except String (SessionState × List UIEvent) :=
        if inp.detectClicked then
          match process_image inp.gts image model confidence with
          | .error e => .error e
          | .ok rc =>
            .ok ({ st1 with result_image := some rc.1, count := some rc.2 },
                 [UIEvent.spinner "Procesando imagen..."])
        else .ok (st1, [])
      match detectOut with
      | .error e => .error e
      | .ok sd =>
        .ok (afterUpload ++ btnEvts ++ sd.2 ++
              downloadSection f.name sd.1 ++ [UIEvent.divider] ++
              [UIEvent.subheader "Imagen Original", UIEvent.image image] ++
              resultsColumn sd.1, sd.1)

/-- The filled banner rectangle that `process_image` draws on a plotted
image of width `w` for a given `count`: from `(0, 0)` to
`(text_w + margin * 2, text_h + margin * 2)`, in `color_bg`, with thickness
`-1` (filled). -/
def bannerRect (gts : GetTextSize) (w : Nat) (count : Nat) : DrawOp :=
  let fs := fontScaleOf w
  let th := thicknessOf fs
  let mg := marginOf fs
  let ts := gts (bannerText count) fs th
  DrawOp.rectangle (0, 0) ((ts.1.1 + mg * 2 : Nat), (ts.1.2 + mg * 2 : Nat))
    color_bg (-1)

/-- The count label that `process_image` puts inside the banner: the text
`TOTAL: <count>` at `(margin, text_h + margin - baseline / 2)` in
`color_text` (white). -/
def bannerLabel (gts : GetTextSize) (w : Nat) (count : Nat) : DrawOp :=
  let fs := fontScaleOf w
  let th := thicknessOf fs
  let mg := marginOf fs
  let ts := gts (bannerText count) fs th
  DrawOp.putText (bannerText count)
    ((mg : Int), (ts.1.2 : Int) + mg - (ts.2 / 2 : Nat)) fs color_text th

/-- A concrete failing YOLO constructor. -/
def yoloFail : String → Except String Model := fun _ => .error "no such file"

/-- A concrete succeeding YOLO constructor, yielding `model0`. -/
def yoloOk : String → Except String Model := fun _ => .ok model0

/-- Concrete rerun inputs whose model constructor fails. -/
def inpFail : MainInputs :=
  { yolo := yoloFail, gts := gts0, decodeImage := fun _ => img0,
    logoExists := true, userSlider := none, uploaded := some fileNew,
    detectClicked := false }

/-- An empty cache state, as at process start. -/
def cacheEmpty : CacheState := { entries := [], constructorCalls := 0 }

end ContadorLarvas

namespace ContadorLarvas

/-- **C1.** For every image, model and confidence value, when the model call
returns a result `r`, the count returned by `process_image` is exactly the
number of boxes in `r.boxes` (`len(results[0].boxes)`). -/
theorem process_image_count (gts : GetTextSize) (img : Img) (m : Model)
    (c : ℚ) (r : DetectResult) (h : m.detect img c = .ok r) :
    ∃ annotated, process_image gts img m c = .ok (annotated, r.boxes.length) := by
  unfold process_image
  rw [h]
  exact ⟨_, rfl⟩

/-- Witness for C1: on the concrete model `model0` with two boxes,
`process_image` reports the count 2. -/
theorem process_image_count_witness :
    ∃ annotated, process_image gts0 img0 model0 (1/4) = .ok (annotated, 2) :=
  process_image_count gts0 img0 model0 (1/4) res0 rfl

/-- **C2.** When a file is uploaded whose name differs from the recorded
`previous_file_name`, the invalidation step deletes the cached result: both
`result_image` and `count` are absent afterwards. -/
theorem new_file_clears_results (f : UploadedFile) (st : SessionState)
    (prev : String) (h1 : st.previous_file_name = some prev)
    (h2 : prev ≠ f.name) :
    (invalidate (some f) st).result_image = none ∧
    (invalidate (some f) st).count = none := by
  unfold invalidate
  rw [h1]
  simp [h2]

/-- Witness for C2: uploading `fileNew` over `stFull` (which records a
different name) clears both cached keys. -/
theorem new_file_clears_results_witness :
    (invalidate (some fileNew) stFull).result_image = none ∧
    (invalidate (some fileNew) stFull).count = none :=
  new_file_clears_results fileNew stFull "larvas.png" rfl (by decide)

/-- **C3.** When the uploaded file is removed (`uploaded_file is None`), the
invalidation step deletes all three session-state keys:
`previous_file_name`, `result_image` and `count` are all absent. -/
theorem remove_file_clears_all (st : SessionState) :
    (invalidate none st).previous_file_name = none ∧
    (invalidate none st).result_image = none ∧
    (invalidate none st).count = none :=
  ⟨rfl, rfl, rfl⟩

/-- **C9.** The invalidation decision depends only on the file's name: if the
uploaded file's name equals the recorded `previous_file_name`, then
`result_image` and `count` are left unchanged — whatever the file's bytes
are, since the step never reads them. -/
theorem same_name_preserves_results (f : UploadedFile) (st : SessionState)
    (h : st.previous_file_name = some f.name) :
    (invalidate (some f) st).result_image = st.result_image ∧
    (invalidate (some f) st).count = st.count := by
  unfold invalidate
  rw [h]
  simp

/-- Witness for C9: `fileSameName` carries bytes `[7]`, different from
whatever produced `stFull`'s cached result, yet uploading it leaves
`result_image` and `count` untouched. -/
theorem same_name_preserves_results_witness :
    (invalidate (some fileSameName) stFull).result_image =
      stFull.result_image ∧
    (invalidate (some fileSameName) stFull).count = stFull.count :=
  same_name_preserves_results fileSameName stFull rfl

/-- **C10.** `result_image` and `count` stay paired: if they are present or
absent together before a step, they are so after the upload-handling step
(`invalidate (some f)`), after the removal-handling step (`invalidate none`)
and after any successful detection step. -/
theorem results_stay_paired (u : Option UploadedFile) (st : SessionState)
    (gts : GetTextSize) (image : Img) (model : Model) (confidence : ℚ)
    (h : paired st) :
    paired (invalidate u st) ∧
    (∀ st2, detectStep gts image model confidence st = .ok st2 →
      paired st2) := by
  constructor
  · match u with
    | none => simp [invalidate, paired]
    | some f =>
      unfold invalidate paired
      match h1 : st.previous_file_name with
      | none => exact h
      | some prev =>
        by_cases h2 : prev ≠ f.name
        · simp [h2]
        · simpa [h2] using h
  · intro st2 hst2
    unfold detectStep at hst2
    match h3 : process_image gts image model confidence with
    | .error e => rw [h3] at hst2; exact absurd hst2 (by simp)
    | .ok rc =>
      rw [h3] at hst2
      simp only [Except.ok.injEq] at hst2
      subst hst2
      simp [paired]

/-- Witness for C10: starting from the paired state `stFull`, the
upload-handling step with `fileNew` keeps the two keys paired, and the
detection step on `model0` does as well. -/
theorem results_stay_paired_witness :
    paired (invalidate (some fileNew) stFull) ∧
    (∀ st2, detectStep gts0 img0 model0 (1/4) stFull = .ok st2 →
      paired st2) :=
  results_stay_paired (some fileNew) stFull gts0 img0 model0 (1/4)
    (by decide)

/-- **C4.** For every uploaded file name and cached count `n`, the filename
offered by the download button is
`resultado_<stem of the uploaded file name>_(n).jpg`. -/
theorem download_filename_embeds_count (uploadedName : String)
    (st : SessionState) (img : Img) (n : Nat)
    (h1 : st.result_image = some img) (h2 : st.count = some n) :
    UIEvent.downloadButton (specDownloadFilename uploadedName n)
      "image/jpeg" ∈ downloadSection uploadedName st := by
  unfold downloadSection
  rw [h1, h2]
  simp [specDownloadFilename]

/-- Witness for C4: for the file `foto_larvas.jpg` and the cached count 2 of
`stFull`, the offered filename is literally `resultado_foto_larvas_(2).jpg`. -/
theorem download_filename_embeds_count_witness :
    specDownloadFilename "foto_larvas.jpg" 2 =
      "resultado_foto_larvas_(2).jpg" ∧
    UIEvent.downloadButton (specDownloadFilename "foto_larvas.jpg" 2)
      "image/jpeg" ∈ downloadSection "foto_larvas.jpg" stFull :=
  ⟨by decide,
   download_filename_embeds_count "foto_larvas.jpg" stFull img0 2 rfl rfl⟩

/-- **C5.** If the YOLO constructor raises, `load_model` returns None, and
the rerun renders the error, the warning and `st.stop` and nothing else: no
file uploader, no button and no download button appear in the trace.
Moreover this is the only handled failure path: an exception from the model
call inside `process_image` propagates unhandled. -/
theorem model_failure_halts (inp : MainInputs) (st0 : SessionState)
    (e : String) (h : inp.yolo Config.DEFAULT_MODEL_PATH = .error e) :
    (load_model inp.yolo Config.DEFAULT_MODEL_PATH).1 = none ∧
    runMain inp st0 =
      .ok (sidebarEvents inp.logoExists ++ headerEvents ++
        [UIEvent.error (modelLoadErrorMsg e), UIEvent.warning modelNotFoundMsg,
         UIEvent.stop], st0) ∧
    UIEvent.fileUploader ∉
      (sidebarEvents inp.logoExists ++ headerEvents ++
        [UIEvent.error (modelLoadErrorMsg e), UIEvent.warning modelNotFoundMsg,
         UIEvent.stop]) ∧
    (∀ lbl, UIEvent.button lbl ∉
      (sidebarEvents inp.logoExists ++ headerEvents ++
        [UIEvent.error (modelLoadErrorMsg e), UIEvent.warning modelNotFoundMsg,
         UIEvent.stop])) ∧
    (∀ fn mi, UIEvent.downloadButton fn mi ∉
      (sidebarEvents inp.logoExists ++ headerEvents ++
        [UIEvent.error (modelLoadErrorMsg e), UIEvent.warning modelNotFoundMsg,
         UIEvent.stop])) ∧
    (∀ gts2 img2 m2 c2 e2, m2.detect img2 c2 = .error e2 →
      process_image gts2 img2 m2 c2 = .error e2) := by
  refine ⟨?_, ?_, ?_, ?_, ?_, ?_⟩
  · simp [load_model, h]
  · cases hb : inp.logoExists <;>
      simp [runMain, load_model, h, sidebarEvents, headerEvents, hb]
  · cases hb : inp.logoExists <;>
      simp [sidebarEvents, headerEvents, hb]
  · intro lbl
    cases hb : inp.logoExists <;>
      simp [sidebarEvents, headerEvents, hb]
  · intro fn mi
    cases hb : inp.logoExists <;>
      simp [sidebarEvents, headerEvents, hb]
  · intro gts2 img2 m2 c2 e2 h2
    unfold process_image
    rw [h2]

/-- Witness for C5: on the concrete inputs `inpFail`, whose constructor
raises, the rerun halts with the error, the warning and stop. -/
theorem model_failure_halts_witness :
    (load_model inpFail.yolo Config.DEFAULT_MODEL_PATH).1 = none ∧
    runMain inpFail stFull =
      .ok (sidebarEvents inpFail.logoExists ++ headerEvents ++
        [UIEvent.error (modelLoadErrorMsg "no such file"),
         UIEvent.warning modelNotFoundMsg, UIEvent.stop], stFull) ∧
    UIEvent.fileUploader ∉
      (sidebarEvents inpFail.logoExists ++ headerEvents ++
        [UIEvent.error (modelLoadErrorMsg "no such file"),
         UIEvent.warning modelNotFoundMsg, UIEvent.stop]) ∧
    (∀ lbl, UIEvent.button lbl ∉
      (sidebarEvents inpFail.logoExists ++ headerEvents ++
        [UIEvent.error (modelLoadErrorMsg "no such file"),
         UIEvent.warning modelNotFoundMsg, UIEvent.stop])) ∧
    (∀ fn mi, UIEvent.downloadButton fn mi ∉
      (sidebarEvents inpFail.logoExists ++ headerEvents ++
        [UIEvent.error (modelLoadErrorMsg "no such file"),
         UIEvent.warning modelNotFoundMsg, UIEvent.stop])) ∧
    (∀ gts2 img2 m2 c2 e2, m2.detect img2 c2 = .error e2 →
      process_image gts2 img2 m2 c2 = .error e2) :=
  model_failure_halts inpFail stFull "no such file" rfl

/-- **C6.** The slider is configured with minimum 0.1, maximum 0.9 and
default 0.25, and every confidence value `main` obtains from it — and hence
passes to `process_image` — lies in the closed interval `[0.1, 0.9]`. -/
theorem confidence_in_range :
    Config.MIN_CONFIDENCE = 1 / 10 ∧ Config.MAX_CONFIDENCE = 9 / 10 ∧
    Config.DEFAULT_CONFIDENCE = 1 / 4 ∧
    ∀ userChoice : Option ℚ,
      Config.MIN_CONFIDENCE ≤ mainConfidence userChoice ∧
      mainConfidence userChoice ≤ Config.MAX_CONFIDENCE := by
  refine ⟨by norm_num [Config.MIN_CONFIDENCE],
          by norm_num [Config.MAX_CONFIDENCE],
          by norm_num [Config.DEFAULT_CONFIDENCE], ?_⟩
  intro u
  match u with
  | none =>
    constructor <;>
      norm_num [mainConfidence, slider, Config.MIN_CONFIDENCE,
        Config.MAX_CONFIDENCE, Config.DEFAULT_CONFIDENCE]
  | some v =>
    unfold mainConfidence slider
    refine ⟨le_max_left _ _, max_le ?_ (min_le_left _ _)⟩
    norm_num [Config.MIN_CONFIDENCE, Config.MAX_CONFIDENCE]

/-- **C7.** The annotated image produced by `process_image` contains the
filled banner rectangle anchored at the top-left corner — from `(0, 0)` to
`(text_w + 2 * margin, text_h + 2 * margin)`, drawn with thickness `-1` —
and the count text `TOTAL: <count>` put inside it in white
`(255, 255, 255)`. -/
theorem process_image_draws_banner (gts : GetTextSize) (img : Img)
    (m : Model) (c : ℚ) (r : DetectResult) (h : m.detect img c = .ok r) :
    ∃ annotated,
      process_image gts img m c = .ok (annotated, r.boxes.length) ∧
      bannerRect gts (bgrToRgb r.plotImg).width r.boxes.length ∈
        annotated.ops ∧
      bannerLabel gts (bgrToRgb r.plotImg).width r.boxes.length ∈
        annotated.ops ∧
      (∃ p2, bannerRect gts (bgrToRgb r.plotImg).width r.boxes.length =
        DrawOp.rectangle (0, 0) p2 color_bg (-1)) ∧
      (∃ org fs th,
        bannerLabel gts (bgrToRgb r.plotImg).width r.boxes.length =
          DrawOp.putText (bannerText r.boxes.length) org fs color_text th) ∧
      color_text = ⟨255, 255, 255⟩ := by
  unfold process_image
  rw [h]
  refine ⟨_, rfl, ?_, ?_, ⟨_, rfl⟩, ⟨_, _, _, rfl⟩, rfl⟩
  · simp [bannerRect]
  · simp [bannerLabel]

/-- Witness for C7: on the concrete model `model0`, the annotated image
carries the banner rectangle and the white `TOTAL: 2` label. -/
theorem process_image_draws_banner_witness :
    ∃ annotated,
      process_image gts0 img0 model0 (1/4) = .ok (annotated, 2) ∧
      bannerRect gts0 (bgrToRgb res0.plotImg).width 2 ∈ annotated.ops ∧
      bannerLabel gts0 (bgrToRgb res0.plotImg).width 2 ∈ annotated.ops ∧
      (∃ p2, bannerRect gts0 (bgrToRgb res0.plotImg).width 2 =
        DrawOp.rectangle (0, 0) p2 color_bg (-1)) ∧
      (∃ org fs th, bannerLabel gts0 (bgrToRgb res0.plotImg).width 2 =
        DrawOp.putText (bannerText 2) org fs color_text th) ∧
      color_text = ⟨255, 255, 255⟩ :=
  process_image_draws_banner gts0 img0 model0 (1/4) res0 rfl

/-- **C8.** `load_model` is memoised by `st.cache_resource`: for a fixed
path, a second call returns the first call's value, leaves the cache state
untouched (so the model is not reconstructed), and in total the constructor
runs at most once more than before the first call. -/
theorem load_model_cached_once (yolo : String → Except String Model)
    (path : String) (cs : CacheState) :
    (load_model_cached yolo path (load_model_cached yolo path cs).2).1 =
      (load_model_cached yolo path cs).1 ∧
    (load_model_cached yolo path (load_model_cached yolo path cs).2).2 =
      (load_model_cached yolo path cs).2 ∧
    (load_model_cached yolo path cs).2.constructorCalls ≤
      cs.constructorCalls + 1 := by
  match h1 : cacheLookup cs.entries path with
  | some v =>
    refine ⟨?_, ?_, ?_⟩ <;> simp [load_model_cached, h1]
  | none =>
    refine ⟨?_, ?_, ?_⟩ <;> simp [load_model_cached, h1, cacheLookup]

end ContadorLarvas
